import Mathlib

/-!
Shallow embedding of the BionicPro prosthesis-reports system: the auth gateway
(src/bff/main.py) and the token-validating report service (src/report-api/main.py).

Python dicts are modelled as association lists with first-match lookup; dict
assignment replaces the value under an existing key and appends otherwise.
Outbound HTTP calls (identity provider, analytical store, downstream report
service) are modelled by explicit outcome parameters, one per call site, so
each request handler becomes a pure function from its inputs and the outcomes
of its outbound calls to its response (and, for session-mutating handlers, the
updated session table).
-/

set_option autoImplicit false

namespace BionicPro

/-- Python dict lookup (first matching key in the association list). -/
def dictGet {α : Type} : List (String × α) → String → Option α
  | [], _ => none
  | (k', v) :: rest, k => if k' = k then some v else dictGet rest k

/-- Python `k in d`. -/
def dictContains {α : Type} (d : List (String × α)) (k : String) : Bool :=
  (dictGet d k).isSome

/-- Python dict assignment `d[k] = v`: replace in place under an existing key,
else append (keys are unique in the tables the code builds). -/
def dictInsert {α : Type} : List (String × α) → String → α → List (String × α)
  | [], k, v => [(k, v)]
  | p :: rest, k, v => if p.1 = k then (k, v) :: rest else p :: dictInsert rest k v

/-- Python `del d[k]`: remove the entry under `k`. -/
def dictErase {α : Type} : List (String × α) → String → List (String × α)
  | [], _ => []
  | p :: rest, k => if p.1 = k then dictErase rest k else p :: dictErase rest k

/-- Python truthiness of an optional string: `None` and `""` are falsy. -/
def strTruthy (o : Option String) : Bool :=
  match o with
  | none => false
  | some s => decide (s ≠ "")

/-- Python `s.startswith(pre)`: the first `len(pre)` characters equal `pre`. -/
def strStartsWith (s pre : String) : Bool :=
  decide (s.toList.take pre.toList.length = pre.toList)

/-- Python `s.strip()`: remove leading and trailing whitespace. -/
def pyStrip (s : String) : String :=
  ((s.toList.dropWhile Char.isWhitespace).reverse.dropWhile Char.isWhitespace).reverse.asString

/-! Models of the Python standard-library pieces the gateway uses for PKCE:
`str.encode()` (UTF-8), `hashlib.sha256(...).digest()` and
`base64.urlsafe_b64encode` (RFC 4648 §5, padded).  Bytes are naturals below
256; 32-bit words are naturals reduced modulo 2^32. -/

/-- UTF-8 encoding of one character. -/
def utf8Char (c : Char) : List Nat :=
  let n := c.toNat
  if n < 128 then [n]
  else if n < 2048 then [192 + n / 64, 128 + n % 64]
  else if n < 65536 then [224 + n / 4096, 128 + n / 64 % 64, 128 + n % 64]
  else [240 + n / 262144, 128 + n / 4096 % 64, 128 + n / 64 % 64, 128 + n % 64]

/-- UTF-8 encoding of a string (Python `s.encode()`). -/
def utf8Encode (s : String) : List Nat :=
  (s.toList.map utf8Char).flatten

/-- Right rotation of a 32-bit word. -/
def rotr32 (n x : Nat) : Nat := (x / 2 ^ n + x % 2 ^ n * 2 ^ (32 - n)) % 2 ^ 32

/-- Logical right shift of a 32-bit word. -/
def shr32 (n x : Nat) : Nat := x / 2 ^ n

/-- Sum of 32-bit words modulo 2^32. -/
def add32 (xs : List Nat) : Nat := xs.foldl (· + ·) 0 % 2 ^ 32

def bigSigma0 (x : Nat) : Nat := Nat.xor (Nat.xor (rotr32 2 x) (rotr32 13 x)) (rotr32 22 x)

def bigSigma1 (x : Nat) : Nat := Nat.xor (Nat.xor (rotr32 6 x) (rotr32 11 x)) (rotr32 25 x)

def smallSigma0 (x : Nat) : Nat := Nat.xor (Nat.xor (rotr32 7 x) (rotr32 18 x)) (shr32 3 x)

def smallSigma1 (x : Nat) : Nat := Nat.xor (Nat.xor (rotr32 17 x) (rotr32 19 x)) (shr32 10 x)

def chFn (x y z : Nat) : Nat :=
  Nat.xor (Nat.land x y) (Nat.land (4294967295 - x % 4294967296) z)

def majFn (x y z : Nat) : Nat :=
  Nat.xor (Nat.xor (Nat.land x y) (Nat.land x z)) (Nat.land y z)

/-- The 64 SHA-256 round constants. -/
def shaK : List Nat :=
  [1116352408, 1899447441, 3049323471, 3921009573, 961987163, 1508970993,
   2453635748, 2870763221, 3624381080, 310598401, 607225278, 1426881987,
   1925078388, 2162078206, 2614888103, 3248222580, 3835390401, 4022224774,
   264347078, 604807628, 770255983, 1249150122, 1555081692, 1996064986,
   2554220882, 2821834349, 2952996808, 3210313671, 3336571891, 3584528711,
   113926993, 338241895, 666307205, 773529912, 1294757372, 1396182291,
   1695183700, 1986661051, 2177026350, 2456956037, 2730485921, 2820302411,
   3259730800, 3345764771, 3516065817, 3600352804, 4094571909, 275423344,
   430227734, 506948616, 659060556, 883997877, 958139571, 1322822218,
   1537002063, 1747873779, 1955562222, 2024104815, 2227730452, 2361852424,
   2428436474, 2756734187, 3204031479, 3329325298]

/-- Big-endian 8-byte encoding of the message bit length. -/
def be64 (n : Nat) : List Nat :=
  [n / 2 ^ 56 % 256, n / 2 ^ 48 % 256, n / 2 ^ 40 % 256, n / 2 ^ 32 % 256,
   n / 2 ^ 24 % 256, n / 2 ^ 16 % 256, n / 2 ^ 8 % 256, n % 256]

/-- SHA-256 message padding: append 0x80, zeros to 56 mod 64, then the bit length. -/
def shaPad (msg : List Nat) : List Nat :=
  let L := msg.length
  msg ++ [128] ++ List.replicate ((120 - (L + 1) % 64) % 64) 0 ++ be64 (8 * L)

/-- Fuel-bounded chunking; each step consumes at least one element, so a fuel
of the list's length suffices. -/
def chunksFuel {α : Type} : Nat → Nat → List α → List (List α)
  | 0, _, _ => []
  | _, _, [] => []
  | fuel + 1, n, x :: xs => ((x :: xs).take (n + 1)) :: chunksFuel fuel n (xs.drop n)

/-- Split a list into chunks of `n + 1` elements (the last may be shorter). -/
def chunks {α : Type} (n : Nat) (l : List α) : List (List α) :=
  chunksFuel l.length n l

/-- Big-endian word value of a byte chunk. -/
def beWord (bs : List Nat) : Nat := bs.foldl (fun acc b => acc * 256 + b) 0

/-- One extension step of the SHA-256 message schedule. -/
def scheduleStep (ws : List Nat) : List Nat :=
  let n := ws.length
  ws ++ [add32 [smallSigma1 (ws.getD (n - 2) 0), ws.getD (n - 7) 0,
                smallSigma0 (ws.getD (n - 15) 0), ws.getD (n - 16) 0]]

/-- Extend 16 message words to the 64-entry schedule. -/
def schedule (ws : List Nat) : List Nat :=
  (List.range 48).foldl (fun acc _ => scheduleStep acc) ws

/-- The eight SHA-256 working variables. -/
structure Hash8 where
  a : Nat
  b : Nat
  c : Nat
  d : Nat
  e : Nat
  f : Nat
  g : Nat
  h : Nat
  deriving DecidableEq, Repr

/-- One SHA-256 compression round. -/
def compressStep (st : Hash8) (kw : Nat × Nat) : Hash8 :=
  let t1 := add32 [st.h, bigSigma1 st.e, chFn st.e st.f st.g, kw.1, kw.2]
  let t2 := add32 [bigSigma0 st.a, majFn st.a st.b st.c]
  ⟨add32 [t1, t2], st.a, st.b, st.c, add32 [st.d, t1], st.e, st.f, st.g⟩

/-- The SHA-256 initial hash value. -/
def shaH0 : Hash8 :=
  ⟨1779033703, 3144134277, 1013904242, 2773480762,
   1359893119, 2600822924, 528734635, 1541459225⟩

/-- Process one 512-bit block. -/
def processBlock (st : Hash8) (block : List Nat) : Hash8 :=
  let ws := schedule ((chunks 3 block).map beWord)
  let r := (shaK.zip ws).foldl compressStep st
  ⟨add32 [st.a, r.a], add32 [st.b, r.b], add32 [st.c, r.c], add32 [st.d, r.d],
   add32 [st.e, r.e], add32 [st.f, r.f], add32 [st.g, r.g], add32 [st.h, r.h]⟩

/-- Big-endian 4-byte encoding of a 32-bit word. -/
def be32 (n : Nat) : List Nat :=
  [n / 16777216 % 256, n / 65536 % 256, n / 256 % 256, n % 256]

/-- SHA-256 digest of a byte string (model of `hashlib.sha256(...).digest()`). -/
def sha256 (msg : List Nat) : List Nat :=
  let st := (chunks 63 (shaPad msg)).foldl processBlock shaH0
  (([st.a, st.b, st.c, st.d, st.e, st.f, st.g, st.h]).map be32).flatten

/-- The URL-safe base64 alphabet of RFC 4648 §5. -/
def b64UrlAlphabet : List Char :=
  "ABCDEFGHIJKLMNOPQRSTUVWXYZabcdefghijklmnopqrstuvwxyz0123456789-_".toList

/-- Character for a 6-bit group. -/
def b64Char (n : Nat) : Char := b64UrlAlphabet.getD n 'A'

/-- Padded URL-safe base64 (model of `base64.urlsafe_b64encode`). -/
def base64urlPadded : List Nat → List Char
  | [] => []
  | [b1] => [b64Char (b1 / 4), b64Char (b1 % 4 * 16), '=', '=']
  | [b1, b2] => [b64Char (b1 / 4), b64Char (b1 % 4 * 16 + b2 / 16), b64Char (b2 % 16 * 4), '=']
  | b1 :: b2 :: b3 :: rest =>
    b64Char (b1 / 4) :: b64Char (b1 % 4 * 16 + b2 / 16) ::
      b64Char (b2 % 16 * 4 + b3 / 64) :: b64Char (b3 % 64) :: base64urlPadded rest

/-- URL-safe base64 with no padding generated at all (the specification's
`base64url_nopad`). -/
def base64urlNoPad : List Nat → List Char
  | [] => []
  | [b1] => [b64Char (b1 / 4), b64Char (b1 % 4 * 16)]
  | [b1, b2] => [b64Char (b1 / 4), b64Char (b1 % 4 * 16 + b2 / 16), b64Char (b2 % 16 * 4)]
  | b1 :: b2 :: b3 :: rest =>
    b64Char (b1 / 4) :: b64Char (b1 % 4 * 16 + b2 / 16) ::
      b64Char (b2 % 16 * 4 + b3 / 64) :: b64Char (b3 % 64) :: base64urlNoPad rest

/-- Python `s.rstrip("=")`: remove every trailing padding character. -/
def rstripEqChars (cs : List Char) : List Char :=
  (cs.reverse.dropWhile (fun c => c = '=')).reverse

namespace BFF

/-- Identity claims cached by the gateway (a Python dict; `none` means the key
is absent, so the value with every field `none` is the empty dict). -/
structure UserInfo where
  preferred_username : Option String := none
  email : Option String := none
  sub : Option String := none
  deriving DecidableEq, Repr

/-- The empty identity dict. -/
def UserInfo.empty : UserInfo := {}

/-- One entry of the gateway's global `sessions` dict.  A pending login attempt
(keyed by the OAuth `state`) has only `code_verifier` and `status`; an active
session has token material and `user_info`. `none` means the key is absent. -/
structure SessionData where
  access_token : Option String := none
  refresh_token : Option String := none
  id_token : Option String := none
  user_info : Option UserInfo := none
  code_verifier : Option String := none
  status : Option String := none
  deriving DecidableEq, Repr

/-- The gateway's in-memory session table. -/
abbrev Sessions := List (String × SessionData)

/-- Outcome of the live userinfo call made by `/auth/status`. -/
inductive UserinfoCheck where
  | ok200
  | non200 (status : Nat)
  | netError
  deriving DecidableEq, Repr

/-- Body of a `/auth/status` response; `user = none` means the key is absent. -/
structure StatusResponse where
  authenticated : Bool
  user : Option UserInfo
  deriving DecidableEq, Repr

/-- GET `/auth/status` (src/bff/main.py lines 49-78).  Returns the updated
session table and the response body.  The handler re-validates the stored
access token against the identity provider's userinfo endpoint; any failure
(no token, non-200, network error) deletes the session and reports
unauthenticated. -/
def auth_status (sessions : Sessions) (cookie : Option String) (check : UserinfoCheck) :
    Sessions × StatusResponse :=
  if ¬ (strTruthy cookie && dictContains sessions (cookie.getD "")) then
    (sessions, ⟨false, none⟩)
  else
    let session_id := cookie.getD ""
    let session_data := (dictGet sessions session_id).getD {}
    if strTruthy session_data.access_token then
      match check with
      | .ok200 => (sessions, ⟨true, some (session_data.user_info.getD {})⟩)
      | .non200 _ => (dictErase sessions session_id, ⟨false, none⟩)
      | .netError => (dictErase sessions session_id, ⟨false, none⟩)
    else
      (dictErase sessions session_id, ⟨false, none⟩)

/-- Token material returned by a successful authorization-code exchange. -/
structure Tokens where
  access_token : String
  refresh_token : Option String := none
  id_token : Option String := none
  deriving DecidableEq, Repr

/-- Outcome of the server-to-server token exchange in `/auth/callback`. -/
inductive ExchangeOutcome where
  | accepted (tokens : Tokens)
  | rejected (status : Nat)
  | netError
  deriving DecidableEq, Repr

/-- Outcome of the best-effort userinfo fetch in `/auth/callback`. -/
inductive UserinfoFetch where
  | ok (info : UserInfo)
  | non200 (status : Nat)
  | netError
  deriving DecidableEq, Repr

/-- Response of `/auth/callback`. -/
inductive CallbackResponse where
  | redirectToLogin
  | httpError (status : Nat)
  | redirectToFrontend (cookie_session_id : String)
  deriving DecidableEq, Repr

/-- The clearly-marked placeholder identity substituted when the userinfo
fetch in the callback degrades. -/
def placeholderIdentity : UserInfo :=
  { preferred_username := some "user_from_keycloak"
    email := some "user@example.com"
    sub := some "user_id" }

/-- The identity cached by the callback: the fetched claims on a 200, the
placeholder on a non-200 or a network error (the documented degraded mode). -/
def callbackIdentity (userinfo : UserinfoFetch) : UserInfo :=
  match userinfo with
  | .ok info => info
  | .non200 _ => placeholderIdentity
  | .netError => placeholderIdentity

/-- GET `/auth/callback?code&state` (src/bff/main.py lines 108-194).
`fresh_session_id` stands for the randomly generated `secrets.token_urlsafe(32)`
handle.  An unknown `state` redirects back to login.  A rejected exchange
raises HTTPException(400), which the surrounding generic handler catches and
re-raises as a 500, like every other exception on the path.  On an accepted
exchange the handler stores the active session under the fresh handle, deletes
the `state` entry, sets the cookie and redirects to the front end. -/
def callback (sessions : Sessions) (code state : String) (exchange : ExchangeOutcome)
    (userinfo : UserinfoFetch) (fresh_session_id : String) : Sessions × CallbackResponse :=
  let _ := code
  if ¬ dictContains sessions state then (sessions, .redirectToLogin)
  else
    match exchange with
    | .rejected _ => (sessions, .httpError 500)
    | .netError => (sessions, .httpError 500)
    | .accepted tokens =>
      let user_info := callbackIdentity userinfo
      let active : SessionData :=
        { access_token := some tokens.access_token
          refresh_token := tokens.refresh_token
          id_token := tokens.id_token
          user_info := some user_info }
      let sessions1 := dictInsert sessions fresh_session_id active
      let sessions2 :=
        if dictContains sessions1 state then dictErase sessions1 state else sessions1
      (sessions2, .redirectToFrontend fresh_session_id)

/-- Response of `/auth/user`: 401 or the cached identity dict. -/
inductive UserResult where
  | unauthenticated (status : Nat)
  | ok (info : UserInfo)
  deriving DecidableEq, Repr

/-- GET `/auth/user` (src/bff/main.py lines 196-206).  No re-validation against
the identity provider: any present session key yields its cached `user_info`
(defaulting to the empty dict when the entry has none, e.g. a pending login
entry keyed by an OAuth `state` value). -/
def get_user (sessions : Sessions) (cookie : Option String) : UserResult :=
  if ¬ (strTruthy cookie && dictContains sessions (cookie.getD "")) then .unauthenticated 401
  else .ok (((dictGet sessions (cookie.getD "")).getD {}).user_info.getD {})

/-- Outcome of the best-effort identity-provider logout call. -/
inductive KcLogoutOutcome where
  | status (code : Nat)
  | netError
  deriving DecidableEq, Repr

/-- Body and side effects of a `/auth/logout` response. -/
structure LogoutResponse where
  status : String
  message : String
  session_cleared : Bool
  keycloak_logout : Bool
  cookie_deleted : Bool
  no_cache : Bool
  deriving DecidableEq, Repr

/-- A one-entry session table holding an active session, used to instantiate
the gateway theorems on concrete inputs. -/
def demoSessions : Sessions :=
  [("sess", { user_info := some { preferred_username := some "u" } })]

/-- GET `/auth/logout` (src/bff/main.py lines 208-260).  Deletes the local
session if the cookie names one; the identity-provider logout is attempted
only when a refresh token exists and its outcome feeds only the
`keycloak_logout` field.  The response always has status "success", deletes
the cookie and disables caching. -/
def logout (sessions : Sessions) (cookie : Option String) (kc : KcLogoutOutcome) :
    Sessions × LogoutResponse :=
  if strTruthy cookie && dictContains sessions (cookie.getD "") then
    let session_id := cookie.getD ""
    let refresh_token := ((dictGet sessions session_id).getD {}).refresh_token
    let sessions1 := dictErase sessions session_id
    let kc_success := strTruthy refresh_token && decide (kc = .status 204)
    (sessions1, ⟨"success", "Logged out successfully", true, kc_success, true, true⟩)
  else
    (sessions, ⟨"success", "Logged out successfully", false, false, true, true⟩)

/-- Outcome of the proxied GET to the Report Generator in `/api/reports`. -/
inductive ApiOutcome where
  | response (status : Nat) (content : String) (content_type : String)
  | netError
  deriving DecidableEq, Repr

/-- Response of the gateway's `/api/reports`. -/
inductive DownloadResult where
  | ok (content : String) (media_type : String)
  | failure (status : Nat)
  deriving DecidableEq, Repr

/-- GET `/api/reports` (src/bff/main.py lines 262-304).  On a non-200 from the
Report Generator the handler raises HTTPException with the downstream status,
but that raise sits inside the same `try` whose generic `except Exception`
catches it (fastapi.HTTPException subclasses Exception and no
`except HTTPException: raise` precedes the generic handler), so the client
receives a 500 instead of the downstream status. -/
def download_report (sessions : Sessions) (cookie : Option String) (api : ApiOutcome) :
    DownloadResult :=
  if ¬ (strTruthy cookie && dictContains sessions (cookie.getD "")) then .failure 401
  else
    let access_token := ((dictGet sessions (cookie.getD "")).getD {}).access_token
    if ¬ strTruthy access_token then .failure 401
    else
      match api with
      | .netError => .failure 500
      | .response status content content_type =>
        if status ≠ 200 then .failure 500
        else .ok content content_type

/-- Function `generate_pkce_code_challenge` (src/bff/main.py lines 41-43):
URL-safe base64 of the SHA-256 digest of the UTF-8 encoded verifier, with the
trailing padding removed by `.rstrip("=")`. -/
def generate_pkce_code_challenge (verifier : String) : String :=
  (rstripEqChars (base64urlPadded (sha256 (utf8Encode verifier)))).asString

/-- The specification's formula for the PKCE challenge:
`base64url_nopad(SHA256(code_verifier))`, encoding without ever producing
padding. -/
def pkceChallengeSpec (verifier : String) : String :=
  (base64urlNoPad (sha256 (utf8Encode verifier))).asString

/-- Response of `/auth/login`. -/
inductive LoginResponse where
  | configError (status : Nat)
  | redirectToIdP (state : String) (code_challenge : String)
  deriving DecidableEq, Repr

/-- GET `/auth/login` (src/bff/main.py lines 80-106).  `state` and
`code_verifier` stand for the randomly generated values.  Stores a pending
entry keyed by `state` in the same `sessions` table that holds active
sessions, then redirects to the identity provider's authorization endpoint. -/
def login (client_secret : String) (sessions : Sessions) (state code_verifier : String) :
    Sessions × LoginResponse :=
  if client_secret = "" then (sessions, .configError 500)
  else
    (dictInsert sessions state { code_verifier := some code_verifier, status := some "pending" },
     .redirectToIdP state (generate_pkce_code_challenge code_verifier))

end BFF

namespace ReportAPI

/-- Claim set of a decoded JWT (`none` means the claim is absent). -/
structure Claims where
  preferred_username : Option String := none
  email : Option String := none
  sub : Option String := none
  given_name : Option String := none
  family_name : Option String := none
  name : Option String := none
  deriving DecidableEq, Repr

/-- Identity extracted by the validator: `preferred_username` via `.get` (may
be absent), every other claim defaulted to the empty string. -/
structure UserInfo where
  preferred_username : Option String
  email : String
  sub : String
  given_name : String
  family_name : String
  name : String
  deriving DecidableEq, Repr

/-- Combined outcome of the signing-key fetch and `jwt.decode` on a token:
success with the decoded claims, `jwt.ExpiredSignatureError`,
`jwt.InvalidTokenError` (bad signature, malformed token), or any other
exception (key-fetch failure). -/
inductive DecodeOutcome where
  | ok (claims : Claims)
  | expiredSignature
  | invalidToken
  | otherError
  deriving DecidableEq, Repr

/-- Result of the `verify_token` dependency: the verified auth dict, or an
HTTPException. -/
inductive VerifyResult where
  | ok (token : String) (user_info : UserInfo) (claims : Claims)
  | httpError (status : Nat) (detail : String)
  deriving DecidableEq, Repr

/-- Function `verify_token` (src/report-api/main.py lines 36-83).  `decode` gives the
outcome of the key fetch plus `jwt.decode` for the presented token.  The
HTTPException(401, "Invalid token: missing username") raised for an empty
username sits inside the same `try`, so the generic `except Exception`
handler catches it and re-raises 401 "Token verification failed". -/
def verify_token (authorization : Option String) (decode : String → DecodeOutcome) :
    VerifyResult :=
  match authorization with
  | none => .httpError 401 "Missing or invalid authorization header"
  | some header =>
    if ¬ strStartsWith header "Bearer " then
      .httpError 401 "Missing or invalid authorization header"
    else
      let token := header.drop 7
      match decode token with
      | .expiredSignature => .httpError 401 "Token expired"
      | .invalidToken => .httpError 401 "Invalid token"
      | .otherError => .httpError 401 "Token verification failed"
      | .ok claims =>
        let user_info : UserInfo :=
          ⟨claims.preferred_username, claims.email.getD "", claims.sub.getD "",
           claims.given_name.getD "", claims.family_name.getD "", claims.name.getD ""⟩
        if ¬ strTruthy user_info.preferred_username then
          .httpError 401 "Token verification failed"
        else .ok token user_info claims

/-- Function `get_user_mapping` (src/report-api/main.py lines 85-93). -/
def get_user_mapping : List (String × String) :=
  [("user1", "CLI001"), ("user2", "CLI002"), ("prothetic1", "CLI003"),
   ("prothetic2", "CLI004"), ("prothetic3", "CLI005"), ("admin1", "CLI006")]

/-- Function `get_client_id_for_user` (src/report-api/main.py lines 95-110). -/
def get_client_id_for_user (username : String) : String :=
  match dictGet get_user_mapping username with
  | some client_id => client_id
  | none =>
    if strStartsWith username "prothetic" then "CLI003"
    else if strStartsWith username "user" then "CLI001"
    else "CLI006"

/-- A calendar date from the analytical store. -/
structure Date where
  year : Nat
  month : Nat
  day : Nat
  deriving DecidableEq, Repr

/-- Two-digit zero padding. -/
def pad2 (n : Nat) : String := if n < 10 then "0" ++ toString n else toString n

/-- Four-digit zero padding. -/
def pad4 (n : Nat) : String :=
  if n < 10 then "000" ++ toString n
  else if n < 100 then "00" ++ toString n
  else if n < 1000 then "0" ++ toString n
  else toString n

/-- Python `date.isoformat()`. -/
def Date.isoformat (d : Date) : String :=
  pad4 d.year ++ "-" ++ pad2 d.month ++ "-" ++ pad2 d.day

/-- Fractional decimal digits of `r / d` by long division, stopping at the
exact representation (17-digit cap, the length of a Python float repr). -/
def fracDigits : Nat → Nat → Nat → String
  | 0, _, _ => ""
  | _, 0, _ => ""
  | fuel + 1, r, d => (Nat.digitChar (r * 10 / d)).toString ++ fracDigits fuel (r * 10 % d) d

/-- Python `str(float)` for the exact decimal values held in the store:
sign, integer part, fractional digits, with `.0` for integral values. -/
def ratPyStr (q : ℚ) : String :=
  let sign := if q.num < 0 then "-" else ""
  let n := q.num.natAbs
  sign ++ toString (n / q.den) ++ "." ++
    (if n % q.den = 0 then "0" else fracDigits 17 (n % q.den) q.den)

/-- One aggregate row of `user_prosthesis_reports` as returned by the store
query (src/report-api/main.py lines 131-144). -/
structure ReportRow where
  client_id : String
  date : Date
  avg_joint_angle : ℚ
  max_joint_angle : ℚ
  min_joint_angle : ℚ
  avg_pressure : ℚ
  avg_battery : ℚ
  most_common_activity : String
  deriving DecidableEq, Repr

/-- Outcome of the ClickHouse query: the matching rows, or a raised
driver/connection exception. -/
inductive QueryOutcome where
  | rows (results : List ReportRow)
  | dbError (msg : String)
  deriving DecidableEq, Repr

/-- The structured `detail` dict of the report endpoint's error responses
(`none` means the key is absent). -/
structure ErrorDetail where
  message : String
  details : String
  client_id : Option String := none
  username : Option String := none
  error : Option String := none
  deriving DecidableEq, Repr

/-- Response of GET `/reports`. -/
inductive ReportResponse where
  | ok (content : String) (media_type : String) (filename : String)
  | httpErrorMsg (status : Nat) (detail : String)
  | httpErrorDetail (status : Nat) (detail : ErrorDetail)
  deriving DecidableEq, Repr

/-- One expanded data point (the dicts appended to `transformed_data`). -/
structure TransformedRow where
  user_id : String
  user_name : String
  user_email : String
  prosthesis_type : String
  signal_type : String
  signal_value : ℚ
  timestamp : Date
  usage_hours : ℚ
  battery_level : ℚ
  created_date : Date
  deriving DecidableEq, Repr

/-- The five (signal type, value) pairs extracted from one aggregate row. -/
def signalsOf (row : ReportRow) : List (String × ℚ) :=
  [("avg_joint_angle", row.avg_joint_angle), ("max_joint_angle", row.max_joint_angle),
   ("min_joint_angle", row.min_joint_angle), ("avg_pressure", row.avg_pressure),
   ("avg_battery", row.avg_battery)]

/-- Expansion of one aggregate row into five data points
(src/report-api/main.py lines 179-202). -/
def transformRow (user_name user_email : String) (row : ReportRow) : List TransformedRow :=
  (signalsOf row).map (fun sv =>
    { user_id := row.client_id
      user_name := user_name
      user_email := user_email
      prosthesis_type := "arm_prosthesis"
      signal_type := sv.1
      signal_value := sv.2
      timestamp := row.date
      usage_hours := 24
      battery_level := row.avg_battery
      created_date := row.date })

/-- Python csv-module minimal quoting: quote a field containing the delimiter, the
quote character or a line break, doubling embedded quotes. -/
def csvField (s : String) : String :=
  if s.toList.any (fun c => c == ',' || c == '"' || c == '\n' || c == '\r') then
    "\"" ++ s.replace "\"" "\"\"" ++ "\""
  else s

/-- One line written by `csv.writer` (default dialect: comma delimiter, CRLF
line terminator). -/
def csvLine (fields : List String) : String :=
  String.intercalate "," (fields.map csvField) ++ "\r\n"

/-- The fixed header row (src/report-api/main.py lines 207-211). -/
def reportHeader : List String :=
  ["User ID", "User Name", "Email", "Prosthesis Type", "Signal Type", "Signal Value",
   "Timestamp", "Usage Hours", "Battery Level", "Created Date"]

/-- The field strings written for one data point (src/report-api/main.py
lines 213-225): `timestamp` is the midnight datetime's isoformat. -/
def renderRow (r : TransformedRow) : List String :=
  [r.user_id, r.user_name, r.user_email, r.prosthesis_type, r.signal_type,
   ratPyStr r.signal_value, r.timestamp.isoformat ++ "T00:00:00", ratPyStr r.usage_hours,
   ratPyStr r.battery_level, r.created_date.isoformat]

/-- Python `f-string of given and family name, stripped, or username`: the display name
attached to every data point. -/
def reportUserName (user_info : UserInfo) : String :=
  if pyStrip (user_info.given_name ++ " " ++ user_info.family_name) = "" then
    user_info.preferred_username.getD ""
  else pyStrip (user_info.given_name ++ " " ++ user_info.family_name)

/-- Python `user_email or username@example.com`: the email attached to every
data point. -/
def reportEmail (user_info : UserInfo) : String :=
  if user_info.email = "" then user_info.preferred_username.getD "" ++ "@example.com"
  else user_info.email

/-- The expanded data points for a result set, given the verified identity. -/
def transformedData (user_info : UserInfo) (results : List ReportRow) : List TransformedRow :=
  (results.map (transformRow (reportUserName user_info) (reportEmail user_info))).flatten

/-- GET `/reports` (src/report-api/main.py lines 112-237), given the verified
identity and the outcome of the store query.  A driver exception yields 500;
an empty result set yields 404 with the scope key and username embedded;
otherwise the CSV artifact is rendered. -/
def download_report (user_info : UserInfo) (query : QueryOutcome) : ReportResponse :=
  if ¬ strTruthy user_info.preferred_username then .httpErrorMsg 400 "User not found"
  else
    let username := user_info.preferred_username.getD ""
    let client_id := get_client_id_for_user username
    match query with
    | .dbError e =>
      .httpErrorDetail 500
        { message := "Database temporarily unavailable"
          details := "Please try again later"
          error := some e }
    | .rows [] =>
      .httpErrorDetail 404
        { message := "No report data available for your account"
          details := "Please check back later or contact support if you believe this is an error"
          client_id := some client_id
          username := some username }
    | .rows results =>
      let csv_content := csvLine reportHeader ++
        String.join ((transformedData user_info results).map (fun r => csvLine (renderRow r)))
      .ok csv_content "text/csv" ("prosthesis_report_" ++ username ++ ".csv")

/-- The store row of the end-to-end scenario:
`(CLI004, 2024-01-01, 10.0, 20.0, 5.0, 1.5, 90.0, "walking")`. -/
def demoRow : ReportRow :=
  ⟨"CLI004", ⟨2024, 1, 1⟩, 10, 20, 5, 3 / 2, 90, "walking"⟩

/-- The verified identity of the end-to-end scenario: username `prothetic2`,
no email and no name claims. -/
def demoIdentity : UserInfo :=
  ⟨some "prothetic2", "", "", "", "", ""⟩

end ReportAPI

end BionicPro

namespace BionicPro

/-! Association-list (Python dict) lemmas. -/

theorem dictGet_erase_self {α : Type} (d : List (String × α)) (k : String) :
    dictGet (dictErase d k) k = none := by
  induction d with
  | nil => rfl
  | cons p rest ih =>
    by_cases h : p.1 = k
    · simp [dictErase, h, ih]
    · simp [dictErase, dictGet, h, ih]

theorem dictGet_erase_ne {α : Type} (d : List (String × α)) (k k' : String) (h : k' ≠ k) :
    dictGet (dictErase d k) k' = dictGet d k' := by
  induction d with
  | nil => rfl
  | cons p rest ih =>
    by_cases hp : p.1 = k
    · simp [dictErase, dictGet, hp, Ne.symm h, ih]
    · simp only [dictErase, hp, if_false]
      by_cases hk : p.1 = k'
      · simp [dictGet, hk]
      · simp [dictGet, hk, ih]

theorem dictContains_erase_self {α : Type} (d : List (String × α)) (k : String) :
    dictContains (dictErase d k) k = false := by
  simp [dictContains, dictGet_erase_self]

theorem dictGet_insert_self {α : Type} (d : List (String × α)) (k : String) (v : α) :
    dictGet (dictInsert d k v) k = some v := by
  induction d with
  | nil => simp [dictInsert, dictGet]
  | cons p rest ih =>
    by_cases hp : p.1 = k
    · simp [dictInsert, dictGet, hp]
    · simp [dictInsert, dictGet, hp, ih]

theorem dictGet_insert_ne {α : Type} (d : List (String × α)) (k k' : String) (v : α)
    (h : k' ≠ k) : dictGet (dictInsert d k v) k' = dictGet d k' := by
  induction d with
  | nil => simp [dictInsert, dictGet, Ne.symm h]
  | cons p rest ih =>
    by_cases hp : p.1 = k
    · simp [dictInsert, dictGet, hp, Ne.symm h]
    · by_cases hk : p.1 = k'
      · simp [dictInsert, dictGet, hp, hk, h]
      · simp [dictInsert, dictGet, hp, hk, ih]

theorem dictContains_insert_ne {α : Type} (d : List (String × α)) (k k' : String) (v : α)
    (h : k' ≠ k) : dictContains (dictInsert d k v) k' = dictContains d k' := by
  simp [dictContains, dictGet_insert_ne d k k' v h]

/-! Base64 lemmas: stripping the `=` padding of the padded URL-safe encoding
yields exactly the padding-free encoding. -/

theorem b64Char_ne_pad (n : Nat) : b64Char n ≠ '=' := by
  unfold b64Char
  rcases lt_or_ge n 64 with h | h
  · have hd : ∀ m, m < 64 → b64UrlAlphabet.getD m 'A' ≠ '=' := by decide
    exact hd n h
  · rw [List.getD_eq_default]
    · decide
    · have hlen : b64UrlAlphabet.length = 64 := by decide
      omega

theorem base64urlNoPad_ne_pad (bs : List Nat) : ∀ c ∈ base64urlNoPad bs, c ≠ '=' := by
  induction bs using base64urlNoPad.induct with
  | case1 => intro c hc; simp [base64urlNoPad] at hc
  | case2 b1 =>
    intro c hc
    simp only [base64urlNoPad, List.mem_cons, List.not_mem_nil, or_false] at hc
    rcases hc with h | h <;> (subst h; exact b64Char_ne_pad _)
  | case3 b1 b2 =>
    intro c hc
    simp only [base64urlNoPad, List.mem_cons, List.not_mem_nil, or_false] at hc
    rcases hc with h | h | h <;> (subst h; exact b64Char_ne_pad _)
  | case4 b1 b2 b3 rest ih =>
    intro c hc
    simp only [base64urlNoPad, List.mem_cons] at hc
    rcases hc with h | h | h | h | h
    · subst h; exact b64Char_ne_pad _
    · subst h; exact b64Char_ne_pad _
    · subst h; exact b64Char_ne_pad _
    · subst h; exact b64Char_ne_pad _
    · exact ih c h

theorem padded_eq_nopad_append (bs : List Nat) :
    ∃ m, base64urlPadded bs = base64urlNoPad bs ++ List.replicate m '=' := by
  induction bs using base64urlPadded.induct with
  | case1 => exact ⟨0, rfl⟩
  | case2 b1 => exact ⟨2, rfl⟩
  | case3 b1 b2 => exact ⟨1, rfl⟩
  | case4 b1 b2 b3 rest ih =>
    obtain ⟨m, hm⟩ := ih
    exact ⟨m, by simp [base64urlPadded, base64urlNoPad, hm]⟩

theorem dropWhile_replicate_append {α : Type} (p : α → Bool) (a : α) (m : Nat) (l : List α)
    (h : p a = true) :
    List.dropWhile p (List.replicate m a ++ l) = List.dropWhile p l := by
  induction m with
  | zero => simp
  | succ m ih => simp [List.replicate_succ, List.dropWhile_cons, h, ih]

theorem dropWhile_eq_self_of_not {α : Type} (p : α → Bool) (l : List α)
    (h : ∀ c ∈ l, p c = false) : List.dropWhile p l = l := by
  cases l with
  | nil => rfl
  | cons a l => simp [List.dropWhile_cons, h a (List.mem_cons_self a l)]

theorem rstrip_append_pad (cs : List Char) (m : Nat) (h : ∀ c ∈ cs, c ≠ '=') :
    rstripEqChars (cs ++ List.replicate m '=') = cs := by
  unfold rstripEqChars
  rw [List.reverse_append, List.reverse_replicate,
    dropWhile_replicate_append _ _ _ _ (by simp),
    dropWhile_eq_self_of_not, List.reverse_reverse]
  intro c hc
  simpa using h c (List.mem_reverse.mp hc)

theorem rstrip_padded_eq_nopad (bs : List Nat) :
    rstripEqChars (base64urlPadded bs) = base64urlNoPad bs := by
  obtain ⟨m, hm⟩ := padded_eq_nopad_append bs
  rw [hm, rstrip_append_pad _ _ (base64urlNoPad_ne_pad bs)]

/-- Every scope key in the fixed username table is non-empty. -/
theorem mapping_value_ne_empty (k cid : String)
    (h : dictGet ReportAPI.get_user_mapping k = some cid) : cid ≠ "" := by
  simp only [ReportAPI.get_user_mapping, dictGet] at h
  split_ifs at h <;> (simp only [Option.some.injEq] at h; subst h; decide)

/-- C8: for every code verifier, the PKCE code challenge the gateway derives
(URL-safe base64 of the SHA-256 digest with the trailing `=` padding removed
by `rstrip`) equals the specification's `base64url_nopad(SHA256(verifier))`,
the padding-free URL-safe base64 encoding of the digest. -/
theorem pkce_challenge_eq_spec (verifier : String) :
    BFF.generate_pkce_code_challenge verifier = BFF.pkceChallengeSpec verifier := by
  unfold BFF.generate_pkce_code_challenge BFF.pkceChallengeSpec
  rw [rstrip_padded_eq_nopad]

/-- C5: the identity-to-scope-key mapping is a total deterministic function:
every username resolves to exactly one non-empty scope key — the fixed-table
value when the username is a known key, otherwise the representative scope
key of the username-prefix rules, otherwise the administrative default — and
it never fails. -/
theorem scope_key_mapping_total (username : String) :
    ReportAPI.get_client_id_for_user username ≠ ""
    ∧ (∀ cid, dictGet ReportAPI.get_user_mapping username = some cid →
        ReportAPI.get_client_id_for_user username = cid)
    ∧ (dictGet ReportAPI.get_user_mapping username = none →
        ReportAPI.get_client_id_for_user username =
          (if strStartsWith username "prothetic" then "CLI003"
           else if strStartsWith username "user" then "CLI001"
           else "CLI006")) := by
  refine ⟨?_, ?_, ?_⟩
  · unfold ReportAPI.get_client_id_for_user
    rcases h : dictGet ReportAPI.get_user_mapping username with _ | cid
    · split_ifs <;> decide
    · exact mapping_value_ne_empty username cid h
  · intro cid h
    unfold ReportAPI.get_client_id_for_user
    rw [h]
  · intro h
    unfold ReportAPI.get_client_id_for_user
    rw [h]

/-- C5 witness: an unknown username with no role prefix resolves to the
administrative default, a table username to its fixed value, and neither is
empty. -/
theorem scope_key_mapping_total_witness :
    ReportAPI.get_client_id_for_user "alice" ≠ ""
    ∧ ReportAPI.get_client_id_for_user "alice" = "CLI006"
    ∧ ReportAPI.get_client_id_for_user "user1" = "CLI001" :=
  ⟨(scope_key_mapping_total "alice").1,
   ((scope_key_mapping_total "alice").2.2 (by decide)).trans (by decide),
   (scope_key_mapping_total "user1").2.1 "CLI001" (by decide)⟩

/-- C1: the Report Generator's token verification responds 401 (and never
succeeds) whenever the Authorization header is missing or lacks the `Bearer `
prefix, the token's signature does not verify, the token is expired or
malformed or the key fetch fails, or the decoded username claim is absent or
empty; the hypothesis states exactly that no successful decode with a
non-empty username exists for the presented header. -/
theorem verify_token_rejects_unauthenticated (authorization : Option String)
    (decode : String → ReportAPI.DecodeOutcome)
    (h : ∀ s, authorization = some s → strStartsWith s "Bearer " = true →
      ∀ claims, decode (s.drop 7) = ReportAPI.DecodeOutcome.ok claims →
        strTruthy claims.preferred_username = false) :
    ∃ detail, ReportAPI.verify_token authorization decode =
      ReportAPI.VerifyResult.httpError 401 detail := by
  unfold ReportAPI.verify_token
  cases authorization with
  | none => exact ⟨_, rfl⟩
  | some s =>
    by_cases hb : strStartsWith s "Bearer " = true
    · simp only [hb, not_true, if_neg, ite_false, if_false]
      cases hd : decode (s.drop 7) with
      | ok claims =>
        have hu := h s rfl hb claims hd
        simp [hu]
      | expiredSignature => exact ⟨_, rfl⟩
      | invalidToken => exact ⟨_, rfl⟩
      | otherError => exact ⟨_, rfl⟩
    · simp [hb]

/-- C1 witness: a syntactically well-formed bearer header whose token decode
reports an expired signature is rejected with a 401. -/
theorem verify_token_rejects_unauthenticated_witness :
    ReportAPI.verify_token (some "Bearer deadbeef")
        (fun _ => ReportAPI.DecodeOutcome.expiredSignature) =
      ReportAPI.VerifyResult.httpError 401 "Token expired"
    ∧ ∃ detail, ReportAPI.verify_token (some "Bearer deadbeef")
        (fun _ => ReportAPI.DecodeOutcome.expiredSignature) =
      ReportAPI.VerifyResult.httpError 401 detail :=
  ⟨by decide,
   verify_token_rejects_unauthenticated (some "Bearer deadbeef")
    (fun _ => ReportAPI.DecodeOutcome.expiredSignature)
    (fun _ _ _ _ hc => nomatch hc)⟩

/-- C7: with a verified non-empty username, a query returning zero rows yields
the structured 404 NotFound with the requesting scope key and username
embedded, while a store fault yields a 5xx (500) ServiceUnavailable-class
response, distinct from the NotFound; neither is a success. -/
theorem report_error_modes (user_info : ReportAPI.UserInfo) (e : String)
    (huser : strTruthy user_info.preferred_username = true) :
    ReportAPI.download_report user_info (ReportAPI.QueryOutcome.rows []) =
      ReportAPI.ReportResponse.httpErrorDetail 404
        { message := "No report data available for your account"
          details := "Please check back later or contact support if you believe this is an error"
          client_id := some (ReportAPI.get_client_id_for_user
            (user_info.preferred_username.getD ""))
          username := some (user_info.preferred_username.getD "") }
    ∧ ReportAPI.download_report user_info (ReportAPI.QueryOutcome.dbError e) =
      ReportAPI.ReportResponse.httpErrorDetail 500
        { message := "Database temporarily unavailable"
          details := "Please try again later"
          error := some e }
    ∧ ReportAPI.download_report user_info (ReportAPI.QueryOutcome.rows []) ≠
        ReportAPI.download_report user_info (ReportAPI.QueryOutcome.dbError e)
    ∧ (∀ c m f, ReportAPI.download_report user_info (ReportAPI.QueryOutcome.rows []) ≠
        ReportAPI.ReportResponse.ok c m f)
    ∧ (∀ c m f, ReportAPI.download_report user_info (ReportAPI.QueryOutcome.dbError e) ≠
        ReportAPI.ReportResponse.ok c m f) := by
  have h404 : ReportAPI.download_report user_info (ReportAPI.QueryOutcome.rows []) =
      ReportAPI.ReportResponse.httpErrorDetail 404
        { message := "No report data available for your account"
          details := "Please check back later or contact support if you believe this is an error"
          client_id := some (ReportAPI.get_client_id_for_user
            (user_info.preferred_username.getD ""))
          username := some (user_info.preferred_username.getD "") } := by
    unfold ReportAPI.download_report
    simp [huser]
  have h500 : ReportAPI.download_report user_info (ReportAPI.QueryOutcome.dbError e) =
      ReportAPI.ReportResponse.httpErrorDetail 500
        { message := "Database temporarily unavailable"
          details := "Please try again later"
          error := some e } := by
    unfold ReportAPI.download_report
    simp [huser]
  refine ⟨h404, h500, ?_, ?_, ?_⟩
  · rw [h404, h500]
    intro hdis
    injection hdis with hstat hdet
    exact absurd hstat (by decide)
  · intro c m f
    rw [h404]
    exact fun hdis => ReportAPI.ReportResponse.noConfusion hdis
  · intro c m f
    rw [h500]
    exact fun hdis => ReportAPI.ReportResponse.noConfusion hdis

/-- C2: when the identity provider accepts the token exchange, the callback
creates exactly one new active session under the freshly generated handle
(token material plus cached identity), deletes the pending state-keyed entry,
leaves every other entry untouched, and redirects with the fresh cookie; a
second callback presenting the same state finds no entry and is treated as an
invalid/expired attempt, redirected back to login with no error and no table
change. -/
theorem callback_one_time_state (sessions : BFF.Sessions) (code code2 state : String)
    (tokens : BFF.Tokens) (userinfo userinfo2 : BFF.UserinfoFetch)
    (exchange2 : BFF.ExchangeOutcome) (fresh fresh2 : String)
    (hstate : dictContains sessions state = true)
    (_hfresh : dictContains sessions fresh = false)
    (hne : fresh ≠ state) :
    (BFF.callback sessions code state (BFF.ExchangeOutcome.accepted tokens) userinfo fresh).2 =
      BFF.CallbackResponse.redirectToFrontend fresh
    ∧ dictGet (BFF.callback sessions code state (BFF.ExchangeOutcome.accepted tokens)
          userinfo fresh).1 fresh =
        some { access_token := some tokens.access_token
               refresh_token := tokens.refresh_token
               id_token := tokens.id_token
               user_info := some (BFF.callbackIdentity userinfo) }
    ∧ dictGet (BFF.callback sessions code state (BFF.ExchangeOutcome.accepted tokens)
          userinfo fresh).1 state = none
    ∧ (∀ k, k ≠ fresh → k ≠ state →
        dictGet (BFF.callback sessions code state (BFF.ExchangeOutcome.accepted tokens)
          userinfo fresh).1 k = dictGet sessions k)
    ∧ BFF.callback (BFF.callback sessions code state (BFF.ExchangeOutcome.accepted tokens)
          userinfo fresh).1 code2 state exchange2 userinfo2 fresh2 =
        ((BFF.callback sessions code state (BFF.ExchangeOutcome.accepted tokens)
          userinfo fresh).1, BFF.CallbackResponse.redirectToLogin) := by
  have hc1 : dictContains
      (dictInsert sessions fresh
        { access_token := some tokens.access_token
          refresh_token := tokens.refresh_token
          id_token := tokens.id_token
          user_info := some (BFF.callbackIdentity userinfo) }) state = true := by
    rw [dictContains_insert_ne _ _ _ _ (Ne.symm hne)]
    exact hstate
  have hmain : BFF.callback sessions code state (BFF.ExchangeOutcome.accepted tokens)
      userinfo fresh =
      (dictErase
        (dictInsert sessions fresh
          { access_token := some tokens.access_token
            refresh_token := tokens.refresh_token
            id_token := tokens.id_token
            user_info := some (BFF.callbackIdentity userinfo) }) state,
       BFF.CallbackResponse.redirectToFrontend fresh) := by
    simp [BFF.callback, hstate, hc1]
  refine ⟨?_, ?_, ?_, ?_, ?_⟩
  · rw [hmain]
  · rw [hmain]
    exact (dictGet_erase_ne _ _ _ hne).trans (dictGet_insert_self _ _ _)
  · rw [hmain]
    exact dictGet_erase_self _ _
  · intro k hk1 hk2
    rw [hmain]
    exact (dictGet_erase_ne _ _ _ hk2).trans (dictGet_insert_ne _ _ _ _ hk1)
  · rw [hmain]
    simp [BFF.callback, dictContains_erase_self]

/-- C2 witness: a concrete pending state entry consumed by an accepted
exchange: the state entry is gone and replaying the same state redirects back
to login. -/
theorem callback_one_time_state_witness :
    dictGet (BFF.callback [("st", { code_verifier := some "ver", status := some "pending" })]
        "c" "st" (BFF.ExchangeOutcome.accepted { access_token := "at" })
        (BFF.UserinfoFetch.ok {}) "fr").1 "st" = none
    ∧ BFF.callback (BFF.callback
          [("st", { code_verifier := some "ver", status := some "pending" })]
          "c" "st" (BFF.ExchangeOutcome.accepted { access_token := "at" })
          (BFF.UserinfoFetch.ok {}) "fr").1 "c2" "st" BFF.ExchangeOutcome.netError
        (BFF.UserinfoFetch.ok {}) "fr2" =
      ((BFF.callback [("st", { code_verifier := some "ver", status := some "pending" })]
          "c" "st" (BFF.ExchangeOutcome.accepted { access_token := "at" })
          (BFF.UserinfoFetch.ok {}) "fr").1, BFF.CallbackResponse.redirectToLogin) :=
  ⟨(callback_one_time_state
      [("st", { code_verifier := some "ver", status := some "pending" })]
      "c" "c2" "st" { access_token := "at" } (BFF.UserinfoFetch.ok {})
      (BFF.UserinfoFetch.ok {}) BFF.ExchangeOutcome.netError "fr" "fr2"
      (by decide) (by decide) (by decide)).2.2.1,
   (callback_one_time_state
      [("st", { code_verifier := some "ver", status := some "pending" })]
      "c" "c2" "st" { access_token := "at" } (BFF.UserinfoFetch.ok {})
      (BFF.UserinfoFetch.ok {}) BFF.ExchangeOutcome.netError "fr" "fr2"
      (by decide) (by decide) (by decide)).2.2.2.2⟩

/-- C3: counter-evidence.  The gateway does NOT propagate the downstream
status of the Report Generator: with a valid session, a downstream 404 is
surfaced to the client as a 500, because the pass-through HTTPException
raised with the downstream status is caught by the same handler's generic
`except Exception` and re-raised as a 500.  It is still always a failure,
never a synthesized success. -/
theorem bff_download_report_rewrites_status :
    BFF.download_report [("sid", { access_token := some "tok" })] (some "sid")
        (BFF.ApiOutcome.response 404 "detail" "application/json") =
      BFF.DownloadResult.failure 500
    ∧ BFF.DownloadResult.failure (500 : Nat) ≠ BFF.DownloadResult.failure 404
    ∧ (∀ c m, BFF.download_report [("sid", { access_token := some "tok" })] (some "sid")
        (BFF.ApiOutcome.response 404 "detail" "application/json") ≠
          BFF.DownloadResult.ok c m) := by
  refine ⟨by decide, by decide, ?_⟩
  intro c m h
  rw [show BFF.download_report [("sid", { access_token := some "tok" })] (some "sid")
      (BFF.ApiOutcome.response 404 "detail" "application/json") =
      BFF.DownloadResult.failure 500 from by decide] at h
  exact BFF.DownloadResult.noConfusion h

/-- C4: a `/auth/status` request whose session fails the live userinfo
re-validation (network error or any non-200) deletes the session and reports
unauthenticated; a second request with the same cookie again reports
unauthenticated without error. -/
theorem auth_status_failed_validation_deletes (sessions : BFF.Sessions) (sid : String)
    (check check2 : BFF.UserinfoCheck)
    (hsid : sid ≠ "")
    (hmem : dictContains sessions sid = true)
    (_htok : strTruthy ((dictGet sessions sid).getD {}).access_token = true)
    (hfail : check ≠ BFF.UserinfoCheck.ok200) :
    BFF.auth_status sessions (some sid) check = (dictErase sessions sid, ⟨false, none⟩)
    ∧ BFF.auth_status (dictErase sessions sid) (some sid) check2 =
        (dictErase sessions sid, ⟨false, none⟩) := by
  constructor
  · cases check with
    | ok200 => exact absurd rfl hfail
    | non200 s => simp [BFF.auth_status, strTruthy, hsid, hmem]
    | netError => simp [BFF.auth_status, strTruthy, hsid, hmem]
  · simp [BFF.auth_status, dictContains_erase_self]

/-- C4 witness: a live session whose token fails re-validation with a network
error is deleted; re-presenting the cookie still reports unauthenticated. -/
theorem auth_status_failed_validation_deletes_witness :
    BFF.auth_status [("s", { access_token := some "t" })] (some "s")
        BFF.UserinfoCheck.netError =
      (dictErase [("s", { access_token := some "t" })] "s", ⟨false, none⟩)
    ∧ BFF.auth_status (dictErase [("s", { access_token := some "t" })] "s") (some "s")
        (BFF.UserinfoCheck.non200 401) =
      (dictErase [("s", { access_token := some "t" })] "s", ⟨false, none⟩) :=
  auth_status_failed_validation_deletes [("s", { access_token := some "t" })] "s"
    BFF.UserinfoCheck.netError (BFF.UserinfoCheck.non200 401)
    (by decide) (by decide) (by decide) (by decide)

/-- C9: logout always succeeds and deletes the cookie; `session_cleared` is
exactly "the cookie named a live session" and, like the updated table, does
not depend on the identity-provider outcome, which only feeds the separate
`keycloak_logout` field; a second logout with the same cookie reports
`session_cleared = false`. -/
theorem logout_idempotent_kc_separate (sessions : BFF.Sessions) (cookie : Option String)
    (kc kc2 kc3 : BFF.KcLogoutOutcome) :
    ((BFF.logout sessions cookie kc).2.status = "success"
      ∧ (BFF.logout sessions cookie kc).2.message = "Logged out successfully"
      ∧ (BFF.logout sessions cookie kc).2.cookie_deleted = true
      ∧ (BFF.logout sessions cookie kc).2.no_cache = true)
    ∧ (BFF.logout sessions cookie kc).2.session_cleared =
        (strTruthy cookie && dictContains sessions (cookie.getD ""))
    ∧ ((BFF.logout sessions cookie kc).1 = (BFF.logout sessions cookie kc2).1
      ∧ (BFF.logout sessions cookie kc).2.session_cleared =
          (BFF.logout sessions cookie kc2).2.session_cleared)
    ∧ (BFF.logout sessions cookie kc).2.keycloak_logout =
        ((strTruthy cookie && dictContains sessions (cookie.getD "")) &&
          (strTruthy ((dictGet sessions (cookie.getD "")).getD {}).refresh_token &&
            decide (kc = BFF.KcLogoutOutcome.status 204)))
    ∧ (BFF.logout (BFF.logout sessions cookie kc).1 cookie kc3).2.session_cleared = false := by
  by_cases hcond : (strTruthy cookie && dictContains sessions (cookie.getD "")) = true
  · refine ⟨by simp [BFF.logout, hcond], by simp [BFF.logout, hcond],
      ⟨by simp [BFF.logout, hcond], by simp [BFF.logout, hcond]⟩,
      by simp [BFF.logout, hcond], ?_⟩
    have h1 : (BFF.logout sessions cookie kc).1 = dictErase sessions (cookie.getD "") := by
      simp [BFF.logout, hcond]
    rw [h1]
    simp [BFF.logout, dictContains_erase_self]
  · rw [Bool.not_eq_true] at hcond
    refine ⟨by simp [BFF.logout, hcond], by simp [BFF.logout, hcond],
      ⟨by simp [BFF.logout, hcond], by simp [BFF.logout, hcond]⟩,
      by simp [BFF.logout, hcond], ?_⟩
    have h1 : (BFF.logout sessions cookie kc).1 = sessions := by
      simp [BFF.logout, hcond]
    rw [h1]
    simp [BFF.logout, hcond]

/-- C10: `/auth/user` returns 401 exactly when the cookie is absent (empty)
or not a key of the session table; any present key yields 200 with the cached
`user_info` (no parameter of the model carries an identity-provider outcome,
mirroring that no re-validation happens); and because `/auth/login` stores
its pending entry in the same table keyed by the OAuth state, presenting that
state value as the cookie yields 200 with the empty identity object. -/
theorem get_user_presence_only (sessions : BFF.Sessions) (cookie : Option String)
    (client_secret state verifier : String)
    (hsecret : client_secret ≠ "") (hstate : state ≠ "") :
    (BFF.get_user sessions cookie = BFF.UserResult.unauthenticated 401 ↔
      (strTruthy cookie && dictContains sessions (cookie.getD "")) = false)
    ∧ (∀ sid, cookie = some sid → sid ≠ "" → dictContains sessions sid = true →
        BFF.get_user sessions cookie =
          BFF.UserResult.ok (((dictGet sessions sid).getD {}).user_info.getD {}))
    ∧ BFF.get_user (BFF.login client_secret sessions state verifier).1 (some state) =
        BFF.UserResult.ok BFF.UserInfo.empty := by
  refine ⟨?_, ?_, ?_⟩
  · by_cases hcond : (strTruthy cookie && dictContains sessions (cookie.getD "")) = true
    · simp [BFF.get_user, hcond]
    · rw [Bool.not_eq_true] at hcond
      simp [BFF.get_user, hcond]
  · intro sid hc hs hm
    subst hc
    simp [BFF.get_user, strTruthy, hs, hm]
  · have h1 : (BFF.login client_secret sessions state verifier).1 =
        dictInsert sessions state { code_verifier := some verifier, status := some "pending" } := by
      simp [BFF.login, hsecret]
    rw [h1]
    simp [BFF.get_user, strTruthy, hstate, dictContains, dictGet_insert_self, BFF.UserInfo.empty]

/-- C10 witness: a live session key yields the cached identity; a pending
login state presented as the cookie yields the empty identity, not a 401. -/
theorem get_user_presence_only_witness :
    BFF.get_user BFF.demoSessions (some "sess") =
      BFF.UserResult.ok (((dictGet BFF.demoSessions "sess").getD {}).user_info.getD {})
    ∧ BFF.get_user (BFF.login "secret" BFF.demoSessions "st" "ver").1 (some "st") =
      BFF.UserResult.ok BFF.UserInfo.empty :=
  ⟨(get_user_presence_only BFF.demoSessions (some "sess") "secret" "st" "ver"
      (by decide) (by decide)).2.1 "sess" rfl (by decide) (by decide),
   (get_user_presence_only BFF.demoSessions (some "sess") "secret" "st" "ver"
      (by decide) (by decide)).2.2⟩

/-- Each aggregate row expands to exactly five data points. -/
theorem transformRow_length (user_name user_email : String) (row : ReportAPI.ReportRow) :
    (ReportAPI.transformRow user_name user_email row).length = 5 := rfl

/-- The expansion of a result set has five data points per row. -/
theorem transformedData_length (ui : ReportAPI.UserInfo) (rows : List ReportAPI.ReportRow) :
    (ReportAPI.transformedData ui rows).length = 5 * rows.length := by
  induction rows with
  | nil => rfl
  | cons r rs ih =>
    simp only [ReportAPI.transformedData, List.map_cons, List.flatten_cons,
      List.length_append, List.length_cons] at ih ⊢
    rw [transformRow_length, ih]
    ring

/-- Every expanded data point traces back to a source row, carries one of the
five signal types, the nominal 24.0 usage-hours constant, the source row's
avg_battery as battery level, and the source row's date as created date and
timestamp. -/
theorem transformedData_mem (ui : ReportAPI.UserInfo) (rows : List ReportAPI.ReportRow)
    (r : ReportAPI.TransformedRow) (hr : r ∈ ReportAPI.transformedData ui rows) :
    ∃ row ∈ rows, r.user_id = row.client_id
      ∧ r.signal_type ∈ (["avg_joint_angle", "max_joint_angle", "min_joint_angle",
          "avg_pressure", "avg_battery"] : List String)
      ∧ r.usage_hours = 24 ∧ r.battery_level = row.avg_battery
      ∧ r.created_date = row.date ∧ r.timestamp = row.date := by
  simp only [ReportAPI.transformedData] at hr
  rw [List.mem_flatten] at hr
  obtain ⟨l, hl, hrl⟩ := hr
  rw [List.mem_map] at hl
  obtain ⟨row, hrow, rfl⟩ := hl
  refine ⟨row, hrow, ?_⟩
  simp only [ReportAPI.transformRow, ReportAPI.signalsOf, List.map_cons, List.map_nil,
    List.mem_cons, List.not_mem_nil, or_false] at hrl
  rcases hrl with h | h | h | h | h <;> subst h <;>
    exact ⟨rfl, by simp, rfl, rfl, rfl, rfl⟩

/-- C6: a successful report over N matching rows is a text/csv artifact made
of the fixed ten-column header line followed by exactly 5·N data lines, one
per signal type per row, each carrying the identity metadata, the nominal
24.0 usage-hours constant, the row's avg_battery as Battery Level and the
row's date as ISO-8601 Created Date; "prothetic2" maps to scope key "CLI004",
and the demo row (CLI004, 2024-01-01, 10.0, 20.0, 5.0, 1.5, 90.0, walking)
yields five data rows all with Battery Level 90.0 and Created Date
2024-01-01. -/
theorem report_artifact_shape (user_info : ReportAPI.UserInfo)
    (results : List ReportAPI.ReportRow)
    (huser : strTruthy user_info.preferred_username = true)
    (hne : results ≠ []) :
    ReportAPI.download_report user_info (ReportAPI.QueryOutcome.rows results) =
      ReportAPI.ReportResponse.ok
        (ReportAPI.csvLine ReportAPI.reportHeader ++
          String.join ((ReportAPI.transformedData user_info results).map
            (fun r => ReportAPI.csvLine (ReportAPI.renderRow r))))
        "text/csv"
        ("prosthesis_report_" ++ user_info.preferred_username.getD "" ++ ".csv")
    ∧ ReportAPI.reportHeader = ["User ID", "User Name", "Email", "Prosthesis Type",
        "Signal Type", "Signal Value", "Timestamp", "Usage Hours", "Battery Level",
        "Created Date"]
    ∧ (ReportAPI.transformedData user_info results).length = 5 * results.length
    ∧ (∀ r ∈ ReportAPI.transformedData user_info results, ∃ row ∈ results,
        r.user_id = row.client_id
        ∧ r.signal_type ∈ (["avg_joint_angle", "max_joint_angle", "min_joint_angle",
            "avg_pressure", "avg_battery"] : List String)
        ∧ r.usage_hours = 24 ∧ r.battery_level = row.avg_battery
        ∧ r.created_date = row.date ∧ r.timestamp = row.date)
    ∧ (∀ r, (ReportAPI.renderRow r).length = ReportAPI.reportHeader.length)
    ∧ ReportAPI.get_client_id_for_user "prothetic2" = "CLI004"
    ∧ (ReportAPI.transformedData ReportAPI.demoIdentity [ReportAPI.demoRow]).map
        (fun r => (ReportAPI.ratPyStr r.battery_level, r.created_date.isoformat)) =
      List.replicate 5 ("90.0", "2024-01-01") := by
  refine ⟨?_, rfl, transformedData_length user_info results,
    fun r hr => transformedData_mem user_info results r hr,
    fun _ => rfl, by decide, by decide⟩
  cases results with
  | nil => exact absurd rfl hne
  | cons r rs => simp [ReportAPI.download_report, huser]

/-- C6 witness: the demo scenario rendered end to end. -/
theorem report_artifact_shape_witness :
    ReportAPI.download_report ReportAPI.demoIdentity
        (ReportAPI.QueryOutcome.rows [ReportAPI.demoRow]) =
      ReportAPI.ReportResponse.ok
        (ReportAPI.csvLine ReportAPI.reportHeader ++
          String.join ((ReportAPI.transformedData ReportAPI.demoIdentity
              [ReportAPI.demoRow]).map
            (fun r => ReportAPI.csvLine (ReportAPI.renderRow r))))
        "text/csv"
        ("prosthesis_report_" ++
          (ReportAPI.demoIdentity.preferred_username.getD "") ++ ".csv")
    ∧ (ReportAPI.transformedData ReportAPI.demoIdentity [ReportAPI.demoRow]).length = 5
    ∧ (ReportAPI.transformedData ReportAPI.demoIdentity [ReportAPI.demoRow]).map
        (fun r => (ReportAPI.ratPyStr r.battery_level, r.created_date.isoformat)) =
      List.replicate 5 ("90.0", "2024-01-01") :=
  ⟨(report_artifact_shape ReportAPI.demoIdentity [ReportAPI.demoRow]
      (by decide) (by decide)).1,
   (report_artifact_shape ReportAPI.demoIdentity [ReportAPI.demoRow]
      (by decide) (by decide)).2.2.1,
   (report_artifact_shape ReportAPI.demoIdentity [ReportAPI.demoRow]
      (by decide) (by decide)).2.2.2.2.2.2⟩

set_option maxRecDepth 4000

/-- Known-answer test: the FIPS 180-4 digest of "abc". -/
example : sha256 (utf8Encode "abc") =
    [186, 120, 22, 191, 143, 1, 207, 234, 65, 65, 64, 222, 93, 174, 34, 35,
     176, 3, 97, 163, 150, 23, 122, 156, 180, 16, 255, 97, 242, 0, 21, 173] := by decide

/-- Known-answer test: the RFC 7636 style challenge of the verifier "test". -/
example : BFF.generate_pkce_code_challenge "test" =
    "n4bQgYhMfWWaL-qgxVrQFaO_TxsrC4Is0V1sFbDwCgg" := by decide

/-- C7 witness: the two failure modes at the demo identity. -/
theorem report_error_modes_witness :
    ReportAPI.download_report ReportAPI.demoIdentity (ReportAPI.QueryOutcome.rows []) =
      ReportAPI.ReportResponse.httpErrorDetail 404
        { message := "No report data available for your account"
          details := "Please check back later or contact support if you believe this is an error"
          client_id := some "CLI004"
          username := some "prothetic2" }
    ∧ ReportAPI.download_report ReportAPI.demoIdentity
        (ReportAPI.QueryOutcome.dbError "timeout") ≠
      ReportAPI.download_report ReportAPI.demoIdentity (ReportAPI.QueryOutcome.rows []) :=
  ⟨by exact (report_error_modes ReportAPI.demoIdentity "timeout" (by decide)).1.trans (by decide),
   fun hdis => (report_error_modes ReportAPI.demoIdentity "timeout" (by decide)).2.2.1 hdis.symm⟩

end BionicPro
